import Mathlib

/-!
# Verification of the RecastNavigationJS plugin (BabylonJS)

Shallow embedding of `src/RecastNavigationJSPlugin.ts` and proofs about it.
Numbers that are JS `number`s in the source are modelled as exact rationals
(`ℚ`); external objects (transform nodes, navmeshes, tile caches, obstacles)
are modelled by opaque natural-number identifiers.  External library calls
(`recast-navigation`) are modelled as function parameters, so that the
theorems quantify over every possible behaviour of the library.
-/

namespace RecastNav

/-- `Epsilon` from `@babylonjs/core/Maths/math.constants`: `0.001`. -/
def Epsilon : ℚ := 1 / 1000

/-- A world-space 3D point, as the `{x, y, z}` objects used by the plugin. -/
structure Vec3 where
  x : ℚ
  y : ℚ
  z : ℚ
deriving DecidableEq, Repr

/-! ## Crowd sub-stepping (`RecastJSCrowd.update`, lines 957–982)

`update(deltaTime)` first calls `recastCrowd.update(deltaTime)` once (the
comment in the source calls this the obstacle update), then — unless
`deltaTime <= Epsilon` — performs the crowd-stepping updates.
`simulationSteps` is the list of step sizes passed to `recastCrowd.update`
by the crowd-stepping part, in order. -/

/-- The sizes of the crowd-stepping `recastCrowd.update` calls made by one
`RecastJSCrowd.update(deltaTime)` call (lines 961–982 of the source), given
the plugin's configured `_timeStep` and `_maximumSubStepCount`.
`maxStepCount` is a natural number; the source's truthiness test
`if (maxStepCount && ...)` is the `maxStepCount ≠ 0` conjunct. -/
def simulationSteps (timeStep : ℚ) (maxStepCount : ℕ) (deltaTime : ℚ) : List ℚ :=
  if deltaTime ≤ Epsilon then []
  else if timeStep ≤ Epsilon then [deltaTime]
  else
    let ic0 : ℤ := ⌊deltaTime / timeStep⌋
    let ic1 : ℤ := if maxStepCount ≠ 0 ∧ (maxStepCount : ℤ) < ic0 then (maxStepCount : ℤ) else ic0
    let ic : ℤ := if ic1 < 1 then 1 else ic1
    List.replicate ic.toNat (deltaTime / (ic : ℚ))

/-- The full list of arguments passed to `recastCrowd.update` by one
`RecastJSCrowd.update(deltaTime)` call: the unconditional leading call at
line 959 (obstacle update), then the crowd-stepping calls. -/
def crowdUpdateCalls (timeStep : ℚ) (maxStepCount : ℕ) (deltaTime : ℚ) : List ℚ :=
  deltaTime :: simulationSteps timeStep maxStepCount deltaTime

/-- The iteration count as the spec phrases it: `floor(deltaTime / timeStep)`,
clamped down to `maxSubStepCount` when that cap is nonzero, and clamped up to
at least 1. -/
def specIterationCount (timeStep : ℚ) (maxStepCount : ℕ) (deltaTime : ℚ) : ℕ :=
  max 1 (if maxStepCount = 0 then ⌊deltaTime / timeStep⌋₊
         else min ⌊deltaTime / timeStep⌋₊ maxStepCount)

/-! ## Crowd per-agent parallel arrays (`RecastJSCrowd`, lines 695–711) -/

/-- The parallel per-agent arrays of `RecastJSCrowd`.  Transform nodes are
opaque identifiers. -/
structure CrowdState where
  transforms : List ℕ
  agents : List ℕ
  reachRadii : List ℚ
  agentDestinationArmed : List Bool
  agentDestination : List Vec3
deriving DecidableEq, Repr

/-- The freshly constructed crowd: every parallel array empty. -/
def CrowdState.empty : CrowdState :=
  { transforms := [], agents := [], reachRadii := [], agentDestinationArmed := [],
    agentDestination := [] }

/-- `RecastJSCrowd.addAgent` (lines 756–781), restricted to its effect on the
parallel arrays.  `agentIndex` is the index returned by the underlying
`recastCrowd.addAgent`; `transform` the transform node argument.
Faithful to the source: the push onto `reachRadii` is commented out at
line 777 of the source, so `reachRadii` is NOT extended. -/
def CrowdState.addAgent (c : CrowdState) (agentIndex : ℕ) (transform : ℕ) : CrowdState :=
  { c with
    transforms := c.transforms ++ [transform]
    agents := c.agents ++ [agentIndex]
    agentDestinationArmed := c.agentDestinationArmed ++ [false]
    agentDestination := c.agentDestination ++ [⟨0, 0, 0⟩] }

/-- `RecastJSCrowd.removeAgent` (lines 932–943), restricted to its effect on
the parallel arrays: `item = agents.indexOf(index)`; when found, one `splice`
of the matching slot from each of the five arrays, otherwise no change. -/
def CrowdState.removeAgent (c : CrowdState) (index : ℕ) : CrowdState :=
  match c.agents.indexOf? index with
  | none => c
  | some item =>
    { transforms := c.transforms.eraseIdx item
      agents := c.agents.eraseIdx item
      reachRadii := c.reachRadii.eraseIdx item
      agentDestinationArmed := c.agentDestinationArmed.eraseIdx item
      agentDestination := c.agentDestination.eraseIdx item }

/-- All five parallel arrays have the same length. -/
def CrowdState.lockstep (c : CrowdState) : Prop :=
  c.transforms.length = c.agents.length ∧
  c.reachRadii.length = c.agents.length ∧
  c.agentDestinationArmed.length = c.agents.length ∧
  c.agentDestination.length = c.agents.length

instance (c : CrowdState) : Decidable c.lockstep := by
  unfold CrowdState.lockstep; infer_instance

/-! ## Arrival detection (`RecastJSCrowd.update`, lines 985–1003) -/

/-- The arrival test at line 998 of the source, for an armed agent:
`agentPosition.y > groundY && agentPosition.y < ceilingY &&
distanceXZSquared < radius * radius`, with `groundY/ceilingY` the destination
`y` minus/plus the reach radius and `distanceXZSquared` the planar squared
distance.  Note every comparison is strict. -/
def reachCheck (agentPosition destination : Vec3) (radius : ℚ) : Bool :=
  let dx := agentPosition.x - destination.x
  let dz := agentPosition.z - destination.z
  let groundY := destination.y - radius
  let ceilingY := destination.y + radius
  let distanceXZSquared := dx * dx + dz * dz
  decide (groundY < agentPosition.y) && decide (agentPosition.y < ceilingY) &&
    decide (distanceXZSquared < radius * radius)

/-- The arrival predicate as claim C5 words it: planar squared distance within
`reachRadius²` and `y` within the CLOSED interval
`[destinationY - reachRadius, destinationY + reachRadius]`. -/
def reachCheckClosed (agentPosition destination : Vec3) (radius : ℚ) : Bool :=
  let dx := agentPosition.x - destination.x
  let dz := agentPosition.z - destination.z
  let distanceXZSquared := dx * dx + dz * dz
  decide (destination.y - radius ≤ agentPosition.y) &&
    decide (agentPosition.y ≤ destination.y + radius) &&
    decide (distanceXZSquared ≤ radius * radius)

/-- One agent's slice of the per-tick arrival handling in
`RecastJSCrowd.update` (lines 991–1001): when the destination-armed flag is
set and the arrival test passes, the flag is cleared and one notification
`{agentIndex, destination}` is emitted; otherwise nothing changes.  Returns
the new flag and the list of notifications emitted this tick. -/
def arrivalTick (armed : Bool) (agentIndex : ℕ) (agentPosition destination : Vec3)
    (radius : ℚ) : Bool × List (ℕ × Vec3) :=
  if armed && reachCheck agentPosition destination radius then
    (false, [(agentIndex, destination)])
  else
    (armed, [])

/-- The arrival handling for one agent across a sequence of `update` ticks,
the agent's position after the tick's repositioning being given per tick.
Returns the final flag and all notifications emitted, in order. -/
def arrivalTrace (armed : Bool) (agentIndex : ℕ) (destination : Vec3) (radius : ℚ) :
    List Vec3 → Bool × List (ℕ × Vec3)
  | [] => (armed, [])
  | p :: ps =>
    let t := arrivalTick armed agentIndex p destination radius
    let rest := arrivalTrace t.1 agentIndex destination radius ps
    (rest.1, t.2 ++ rest.2)

/-! ## Plugin state (`RecastNavigationJSPlugin`)

Navmeshes, query contexts and tile caches are opaque external objects; we
model each by a natural-number identifier.  A query context is identified
with the navmesh it wraps (`new NavMeshQuery(navMesh)`). -/

/-- The plugin fields that the claims concern: `navMesh` (unassigned until
the first build, hence `Option`), `_navMeshQuery`, the retained `_positions`
and `_indices` buffers, and `_tileCache`.  `tileCacheNavMesh` is a ghost
field recording the navmesh produced by `generateTileCache` when the tile
cache was created (used only to state the C9 invariant). -/
structure PluginState where
  navMesh : Option ℕ
  navMeshQuery : Option ℕ
  positions : List ℚ
  indices : List ℚ
  tileCache : Option ℕ
  tileCacheNavMesh : Option ℕ
deriving DecidableEq, Repr

/-- A freshly constructed plugin: nothing built yet, empty buffers. -/
def PluginState.init : PluginState :=
  { navMesh := none, navMeshQuery := none, positions := [], indices := [],
    tileCache := none, tileCacheNavMesh := none }

/-- One source mesh, as the plugin sees it: `getVerticesData` and
`getIndices` may each return `null`, modelled as `Option`. -/
structure MeshData where
  vertexPositions : Option (List ℚ)
  meshIndices : Option (List ℚ)
deriving DecidableEq, Repr

/-- The geometry the build uses (`createNavMesh`, lines 182–183): for a
non-empty mesh array, `positions`/`indices` come from `meshes[0]` alone,
with `?? []` turning a missing buffer into the empty array.  Returns `none`
exactly when the mesh array is empty (the source throws before reaching
lines 182–183 in that case).  This same pair is stored into
`_positions`/`_indices`, posted to the worker, and passed to
`generateSoloNavMesh` in the blocking path. -/
def buildInput : List MeshData → Option (List ℚ × List ℚ)
  | [] => none
  | m :: _ => some (m.vertexPositions.getD [], m.meshIndices.getD [])

/-- The synchronous (blocking) path of `RecastNavigationJSPlugin.createNavMesh`
(lines 165–184 and 343–362).  `gen` models `generateSoloNavMesh`: `none` for
`success == false`, `some nm` for success with navmesh `nm`.  Returns the new
plugin state paired with the thrown error message, if any; on a throw the
state reflects the mutations already performed (the `_positions`/`_indices`
assignment at lines 185–187 happens before the generation check).
The source's `if (!positions || !indices)` throw is dead code — a
`Float32Array` is always truthy in JS — and is therefore not modelled. -/
def createNavMeshSync (s : PluginState) (meshes : List MeshData)
    (gen : List ℚ → List ℚ → Option ℕ) : PluginState × Option String :=
  match buildInput meshes with
  | none => (s, some "At least one mesh is needed to create the nav mesh.")
  | some (positions, indices) =>
    let s1 := { s with positions := positions, indices := indices }
    match gen positions indices with
    | none => (s1, some "Unable to generateSoloNavMesh")
    | some nm => ({ s1 with navMesh := some nm, navMeshQuery := some nm }, none)

/-- `RecastNavigationJSPlugin.buildFromNavmeshData` (lines 579–582): imports
the blob (modelled by the identifier `nm` of the navmesh `importNavMesh`
returns) and installs it as `navMesh`.  No other field is touched. -/
def buildFromNavmeshData (s : PluginState) (nm : ℕ) : PluginState :=
  { s with navMesh := some nm }

/-- `RecastNavigationJSPlugin._createTileCache` (lines 597–610).  `gen`
models `generateTileCache` applied to the retained `_positions`/`_indices`:
`none` for failure, `some (nm, tc)` for success with rebuilt navmesh `nm`
and tile cache `tc`.  When a tile cache already exists, nothing happens;
on generation failure the error is logged and the state is unchanged;
on success both `_tileCache` and `navMesh` are installed. -/
def createTileCache (s : PluginState)
    (gen : List ℚ → List ℚ → Option (ℕ × ℕ)) : PluginState :=
  match s.tileCache with
  | some _ => s
  | none =>
    match gen s.positions s.indices with
    | none => s
    | some (nm, tc) =>
      { s with tileCache := some tc, navMesh := some nm, tileCacheNavMesh := some nm }

/-- `addCylinderObstacle`/`addBoxObstacle` (lines 619–645), restricted to
their effect on the plugin state: both first call `_createTileCache`; the
subsequent `tileCache?.add*Obstacle` call mutates only the external tile
cache object, not the plugin's fields. -/
def addObstacle (s : PluginState)
    (gen : List ℚ → List ℚ → Option (ℕ × ℕ)) : PluginState :=
  createTileCache s gen

/-- The plugin operations whose effect on the state the claims quantify
over.  Each external generation outcome is carried by the operation. -/
inductive PluginOp where
  | createNavMesh (meshes : List MeshData) (gen : List ℚ → List ℚ → Option ℕ)
  | buildFromData (nm : ℕ)
  | addCylinderObstacle (gen : List ℚ → List ℚ → Option (ℕ × ℕ))
  | addBoxObstacle (gen : List ℚ → List ℚ → Option (ℕ × ℕ))
  | removeObstacle
  | dispose

/-- The state transition of one plugin operation.  `removeObstacle`
(lines 651–653) only mutates the external tile cache object and `dispose`
(line 595) is empty, so neither changes the plugin fields. -/
def pluginStep (s : PluginState) : PluginOp → PluginState
  | .createNavMesh meshes gen => (createNavMeshSync s meshes gen).1
  | .buildFromData nm => buildFromNavmeshData s nm
  | .addCylinderObstacle gen => addObstacle s gen
  | .addBoxObstacle gen => addObstacle s gen
  | .removeObstacle => s
  | .dispose => s

/-! ## Path queries (`computePath` / `computePathSmooth`, lines 484–530) -/

/-- `RecastNavigationJSPlugin._convertNavPathPoints` (lines 484–493): reads
`getPointCount()` points out of the nav path and re-wraps each as a fresh
vector.  The external nav path object is modelled as the list of its
points. -/
def convertNavPathPoints (navPath : List Vec3) : List Vec3 :=
  (List.range navPath.length).map fun pt => navPath.getD pt ⟨0, 0, 0⟩

/-- `RecastNavigationJSPlugin.computePath` (lines 502–511).  `query` models
`_navMeshQuery.computePath`, taking the start and end points and returning
the nav path's point list. -/
def computePath (query : Vec3 → Vec3 → List Vec3) (start endPoint : Vec3) : List Vec3 :=
  convertNavPathPoints (query start endPoint)

/-- `RecastNavigationJSPlugin.computePathSmooth` (lines 520–530).  The body
is identical to `computePath` up to the `// TODO: computePathSmooth`
comment: it invokes the same `_navMeshQuery.computePath` and the same
point conversion. -/
def computePathSmooth (query : Vec3 → Vec3 → List Vec3) (start endPoint : Vec3) : List Vec3 :=
  convertNavPathPoints (query start endPoint)

/-! ## Helper lemmas -/

/-- For `deltaTime` and `timeStep` above `Epsilon`, the crowd-stepping part
of `update` performs `specIterationCount` updates of size
`deltaTime / specIterationCount` each. -/
lemma simulationSteps_eq_replicate (timeStep : ℚ) (maxStepCount : ℕ) (deltaTime : ℚ)
    (hdt : Epsilon < deltaTime) (hts : Epsilon < timeStep) :
    simulationSteps timeStep maxStepCount deltaTime =
      List.replicate (specIterationCount timeStep maxStepCount deltaTime)
        (deltaTime / (specIterationCount timeStep maxStepCount deltaTime : ℚ)) := by
  have heps : (0 : ℚ) < Epsilon := by norm_num [Epsilon]
  have hts0 : (0 : ℚ) < timeStep := heps.trans hts
  have hdt0 : (0 : ℚ) < deltaTime := heps.trans hdt
  have hq : (0 : ℚ) ≤ deltaTime / timeStep := (div_pos hdt0 hts0).le
  unfold simulationSteps specIterationCount
  rw [if_neg (not_le.mpr hdt), if_neg (not_le.mpr hts)]
  show List.replicate (Int.toNat _) _ = _
  have hic :
      (if (if maxStepCount ≠ 0 ∧ (maxStepCount : ℤ) < ⌊deltaTime / timeStep⌋ then
            (maxStepCount : ℤ) else ⌊deltaTime / timeStep⌋) < 1 then 1
        else if maxStepCount ≠ 0 ∧ (maxStepCount : ℤ) < ⌊deltaTime / timeStep⌋ then
            (maxStepCount : ℤ) else ⌊deltaTime / timeStep⌋) =
      ((max 1 (if maxStepCount = 0 then ⌊deltaTime / timeStep⌋₊
          else min ⌊deltaTime / timeStep⌋₊ maxStepCount) : ℕ) : ℤ) := by
    rw [← Int.natCast_floor_eq_floor hq]
    split_ifs <;> omega
  rw [hic, Int.toNat_natCast, Int.cast_natCast]

/-- The iteration count is at least one. -/
lemma one_le_specIterationCount (timeStep : ℚ) (maxStepCount : ℕ) (deltaTime : ℚ) :
    1 ≤ specIterationCount timeStep maxStepCount deltaTime :=
  le_max_left _ _

/-- For `deltaTime > Epsilon` the crowd-stepping step sizes sum to
`deltaTime` exactly, whatever the configuration. -/
lemma sum_simulationSteps (timeStep : ℚ) (maxStepCount : ℕ) (deltaTime : ℚ)
    (hdt : Epsilon < deltaTime) :
    (simulationSteps timeStep maxStepCount deltaTime).sum = deltaTime := by
  by_cases hts : timeStep ≤ Epsilon
  · unfold simulationSteps
    rw [if_neg (not_le.mpr hdt), if_pos hts]
    simp
  · rw [simulationSteps_eq_replicate timeStep maxStepCount deltaTime hdt (not_le.mp hts)]
    set k := specIterationCount timeStep maxStepCount deltaTime with hk
    have hk1 : 1 ≤ k := one_le_specIterationCount timeStep maxStepCount deltaTime
    have hk0 : (k : ℚ) ≠ 0 := Nat.cast_ne_zero.mpr (by omega)
    rw [List.sum_replicate, nsmul_eq_mul, ← mul_div_assoc, mul_div_cancel_left₀ _ hk0]

/-- For `deltaTime ≤ Epsilon` the crowd stepping is skipped entirely. -/
lemma simulationSteps_skip (timeStep : ℚ) (maxStepCount : ℕ) (deltaTime : ℚ)
    (hdt : deltaTime ≤ Epsilon) :
    simulationSteps timeStep maxStepCount deltaTime = [] := by
  unfold simulationSteps
  rw [if_pos hdt]

/-- A disarmed agent never re-arms and never notifies, whatever positions
its ticks observe. -/
lemma arrivalTrace_disarmed (agentIndex : ℕ) (destination : Vec3) (radius : ℚ)
    (positions : List Vec3) :
    arrivalTrace false agentIndex destination radius positions = (false, []) := by
  induction positions with
  | nil => rfl
  | cons p ps ih => simp [arrivalTrace, arrivalTick, ih]

/-! ## Claims -/

/-- C1: the parallel per-agent arrays stay in lockstep across addAgent and
removeAgent.  The code violates this: `addAgent` never pushes onto
`reachRadii` (the push at source line 777 is commented out), while
`removeAgent` and the arrival test in `update` still index `reachRadii` as
a parallel array.  Adding one agent to a fresh crowd leaves `reachRadii`
empty while the other arrays have length 1. -/
theorem addAgent_breaks_reachRadii_lockstep :
    CrowdState.empty.lockstep ∧
    (CrowdState.empty.addAgent 0 0).agents.length = 1 ∧
    (CrowdState.empty.addAgent 0 0).transforms.length = 1 ∧
    (CrowdState.empty.addAgent 0 0).reachRadii.length = 0 ∧
    ¬ (CrowdState.empty.addAgent 0 0).lockstep := by
  decide

/-- C2: with `deltaTime > Epsilon` and a configured `timeStep ≤ Epsilon`
(effectively 0), the crowd stepping is exactly one update of the full
`deltaTime`. -/
theorem update_zero_timeStep_single_full_step (timeStep : ℚ) (maxStepCount : ℕ)
    (deltaTime : ℚ) (hdt : Epsilon < deltaTime) (hts : timeStep ≤ Epsilon) :
    simulationSteps timeStep maxStepCount deltaTime = [deltaTime] := by
  unfold simulationSteps
  rw [if_neg (not_le.mpr hdt), if_pos hts]

/-- Witness for C2: `timeStep = 0`, `deltaTime = 1/2` gives the single
step `[1/2]`. -/
theorem update_zero_timeStep_single_full_step_witness :
    Epsilon < (1 / 2 : ℚ) ∧ (0 : ℚ) ≤ Epsilon ∧
      simulationSteps 0 10 (1 / 2) = [1 / 2] :=
  ⟨by norm_num [Epsilon], by norm_num [Epsilon],
    update_zero_timeStep_single_full_step 0 10 (1 / 2) (by norm_num [Epsilon])
      (by norm_num [Epsilon])⟩

/-- C3: with `deltaTime > Epsilon` and `timeStep > Epsilon`, the crowd
stepping is `k` updates each of size `deltaTime / k`, where
`k = floor(deltaTime / timeStep)`, clamped down to `maxSubStepCount` when
that cap is nonzero and clamped up to at least 1 — an even redistribution,
not `k` steps of exactly `timeStep` plus a remainder. -/
theorem update_substeps_even_redistribution (timeStep : ℚ) (maxStepCount : ℕ)
    (deltaTime : ℚ) (hdt : Epsilon < deltaTime) (hts : Epsilon < timeStep) :
    simulationSteps timeStep maxStepCount deltaTime =
      List.replicate (specIterationCount timeStep maxStepCount deltaTime)
        (deltaTime / (specIterationCount timeStep maxStepCount deltaTime : ℚ)) :=
  simulationSteps_eq_replicate timeStep maxStepCount deltaTime hdt hts

/-- Witness for C3: `deltaTime = 1/4`, `timeStep = 1/60`, cap 10:
`floor(15) = 15` clamps to 10 steps of `1/40` each. -/
theorem update_substeps_even_redistribution_witness :
    Epsilon < (1 / 4 : ℚ) ∧ Epsilon < (1 / 60 : ℚ) ∧
      simulationSteps (1 / 60) 10 (1 / 4) = List.replicate 10 (1 / 40) := by
  refine ⟨by norm_num [Epsilon], by norm_num [Epsilon], ?_⟩
  have h := update_substeps_even_redistribution (1 / 60) 10 (1 / 4)
    (by norm_num [Epsilon]) (by norm_num [Epsilon])
  have hk : specIterationCount (1 / 60) 10 (1 / 4) = 10 := by
    norm_num [specIterationCount]
  rw [h, hk]
  norm_num

/-- C4 counterexample: at `deltaTime = 1/1000 = Epsilon > 0` (with
`timeStep = 1/60`, `maxSubStepCount = 10`) the stepping is skipped, so the
sub-step sizes sum to `0`, not to `deltaTime`; the claim's "sum equals
deltaTime ... including the case 0 < deltaTime <= epsilon" fails. -/
theorem substep_sum_fails_in_skip_range :
    (0 : ℚ) < 1 / 1000 ∧ (1 / 1000 : ℚ) ≤ Epsilon ∧
      simulationSteps (1 / 60) 10 (1 / 1000) = [] ∧
      (simulationSteps (1 / 60) 10 (1 / 1000)).sum ≠ (1 / 1000 : ℚ) := by
  have hskip : simulationSteps (1 / 60) 10 (1 / 1000) = [] :=
    simulationSteps_skip _ _ _ (by norm_num [Epsilon])
  exact ⟨by norm_num, by norm_num [Epsilon], hskip, by rw [hskip]; norm_num⟩

/-- C4 (amended): for the claimed `timeStep` and `maxSubStepCount`
combinations and any `deltaTime ≥ 0`, the sub-step sizes sum to `deltaTime`
exactly whenever `deltaTime > Epsilon`; when `deltaTime ≤ Epsilon` the
stepping is skipped and the sum is `0` (the obstacle update at the top of
`update` still runs once regardless, as the leading entry of
`crowdUpdateCalls`). -/
theorem substep_sum_invariant (timeStep : ℚ) (maxStepCount : ℕ) (deltaTime : ℚ)
    (hts : timeStep = 0 ∨ timeStep = 1 / 60 ∨ timeStep = 1 / 30)
    (hm : maxStepCount = 0 ∨ maxStepCount = 1 ∨ maxStepCount = 10)
    (hdt : 0 ≤ deltaTime) :
    (Epsilon < deltaTime →
      (simulationSteps timeStep maxStepCount deltaTime).sum = deltaTime) ∧
    (deltaTime ≤ Epsilon →
      (simulationSteps timeStep maxStepCount deltaTime).sum = 0) ∧
    (crowdUpdateCalls timeStep maxStepCount deltaTime).head? = some deltaTime := by
  refine ⟨fun h => sum_simulationSteps timeStep maxStepCount deltaTime h,
    fun h => ?_, rfl⟩
  rw [simulationSteps_skip timeStep maxStepCount deltaTime h]
  rfl

/-- Witness for C4 (amended): `timeStep = 1/60`, cap 10, `deltaTime = 1/8`
sums to `1/8`. -/
theorem substep_sum_invariant_witness :
    (0 : ℚ) ≤ 1 / 8 ∧ Epsilon < (1 / 8 : ℚ) ∧
      (simulationSteps (1 / 60) 10 (1 / 8)).sum = (1 / 8 : ℚ) :=
  ⟨by norm_num, by norm_num [Epsilon],
    (substep_sum_invariant (1 / 60) 10 (1 / 8) (by norm_num) (by norm_num)
        (by norm_num)).1 (by norm_num [Epsilon])⟩

/-- C5 counterexample: agent at `(0, 1, 0)`, destination `(0, 0, 0)`,
reach radius `1`.  The claim's closed-interval test passes (`y = 1` is the
right endpoint of `[-1, 1]`, planar distance `0 ≤ 1`), but the code's test
is strict (`y < ceilingY` fails), so the arrival does not fire: the flag
stays armed and no notification is emitted. -/
theorem arrival_closed_boundary_no_notification :
    reachCheckClosed ⟨0, 1, 0⟩ ⟨0, 0, 0⟩ 1 = true ∧
    reachCheck ⟨0, 1, 0⟩ ⟨0, 0, 0⟩ 1 = false ∧
    arrivalTick true 0 ⟨0, 1, 0⟩ ⟨0, 0, 0⟩ 1 = (true, []) := by
  refine ⟨?_, ?_, ?_⟩ <;> norm_num [reachCheckClosed, reachCheck, arrivalTick]

/-- C5 (amended): for an armed agent, after the tick's transform write the
arrival fires exactly when the planar squared distance is strictly below
`reachRadius²` and the agent's `y` lies strictly inside the OPEN interval
`(destinationY - reachRadius, destinationY + reachRadius)`; both must hold
simultaneously, and on success the flag is disarmed and exactly one
notification carrying the agent index and the destination is emitted. -/
theorem arrival_strict_test_and_notification (agentIndex : ℕ) (p d : Vec3) (r : ℚ) :
    (reachCheck p d r = true ↔
      (p.x - d.x) * (p.x - d.x) + (p.z - d.z) * (p.z - d.z) < r * r ∧
        d.y - r < p.y ∧ p.y < d.y + r) ∧
    (reachCheck p d r = true →
      arrivalTick true agentIndex p d r = (false, [(agentIndex, d)])) ∧
    (reachCheck p d r = false →
      arrivalTick true agentIndex p d r = (true, [])) := by
  refine ⟨?_, fun h => by simp [arrivalTick, h], fun h => by simp [arrivalTick, h]⟩
  simp only [reachCheck, Bool.and_eq_true, decide_eq_true_eq]
  tauto

/-- Witness for C5 (amended): agent exactly at the destination with radius
1 fires, disarms and notifies once. -/
theorem arrival_strict_test_and_notification_witness :
    reachCheck ⟨0, 0, 0⟩ ⟨0, 0, 0⟩ 1 = true ∧
      arrivalTick true 3 ⟨0, 0, 0⟩ ⟨0, 0, 0⟩ 1 = (false, [(3, ⟨0, 0, 0⟩)]) :=
  ⟨by norm_num [reachCheck],
    (arrival_strict_test_and_notification 3 ⟨0, 0, 0⟩ ⟨0, 0, 0⟩ 1).2.1
      (by norm_num [reachCheck])⟩

/-- C6: over any sequence of update ticks, one arming emits at most one
arrival notification — once the flag is cleared it stays cleared (and so a
second notification needs a new `agentGoto`), however long the agent
lingers in the reach region. -/
theorem at_most_one_arrival_per_arming (armed : Bool) (agentIndex : ℕ)
    (destination : Vec3) (radius : ℚ) (positions : List Vec3) :
    (arrivalTrace armed agentIndex destination radius positions).2.length ≤ 1 := by
  induction positions generalizing armed with
  | nil => cases armed <;> simp [arrivalTrace]
  | cons p ps ih =>
    by_cases h : armed && reachCheck p destination radius
    · simp [arrivalTrace, arrivalTick, h, arrivalTrace_disarmed]
    · simpa [arrivalTrace, arrivalTick, h] using ih armed

/-- C7: `computePathSmooth` returns exactly what `computePath` returns for
every start/end pair and every behaviour of the underlying corridor query —
both defer to the same `_navMeshQuery.computePath` and the same point
conversion. -/
theorem computePathSmooth_eq_computePath (query : Vec3 → Vec3 → List Vec3)
    (start endPoint : Vec3) :
    computePathSmooth query start endPoint = computePath query start endPoint := rfl

/-- `createNavMeshSync` never touches the tile cache fields. -/
lemma createNavMeshSync_tileCache (s : PluginState) (meshes : List MeshData)
    (gen : List ℚ → List ℚ → Option ℕ) :
    (createNavMeshSync s meshes gen).1.tileCache = s.tileCache ∧
    (createNavMeshSync s meshes gen).1.tileCacheNavMesh = s.tileCacheNavMesh := by
  unfold createNavMeshSync
  cases h : buildInput meshes with
  | none => simp
  | some pi =>
    obtain ⟨p, i⟩ := pi
    cases hgen : gen p i <;> simp [hgen]

/-- C8: the synchronous build throws exactly when the mesh array is empty or
`generateSoloNavMesh` reports failure; on every failure the previously
installed `navMesh` and query context are unchanged, and on success the
generated navmesh and a fresh query context wrapping it are installed. -/
theorem createNavMesh_failure_atomicity (s : PluginState) (meshes : List MeshData)
    (gen : List ℚ → List ℚ → Option ℕ) :
    ((createNavMeshSync s meshes gen).2.isSome ↔
      meshes = [] ∨ ∃ p i, buildInput meshes = some (p, i) ∧ gen p i = none) ∧
    ((createNavMeshSync s meshes gen).2.isSome →
      (createNavMeshSync s meshes gen).1.navMesh = s.navMesh ∧
      (createNavMeshSync s meshes gen).1.navMeshQuery = s.navMeshQuery) ∧
    ((createNavMeshSync s meshes gen).2 = none →
      ∃ p i nm, buildInput meshes = some (p, i) ∧ gen p i = some nm ∧
        (createNavMeshSync s meshes gen).1.navMesh = some nm ∧
        (createNavMeshSync s meshes gen).1.navMeshQuery = some nm) := by
  cases meshes with
  | nil => simp [createNavMeshSync, buildInput]
  | cons m rest =>
    cases hg : gen (m.vertexPositions.getD []) (m.meshIndices.getD []) with
    | none =>
      simp [createNavMeshSync, buildInput, hg]
      exact ⟨_, _, ⟨rfl, rfl⟩, hg⟩
    | some nm =>
      simp [createNavMeshSync, buildInput, hg]
      exact ⟨_, _, ⟨rfl, rfl⟩, hg⟩

/-- Witness for C8: the empty mesh array throws and leaves the navmesh and
query references of a fresh plugin unchanged. -/
theorem createNavMesh_failure_atomicity_witness :
    (createNavMeshSync PluginState.init [] fun _ _ => none).1.navMesh =
      PluginState.init.navMesh ∧
    (createNavMeshSync PluginState.init [] fun _ _ => none).1.navMeshQuery =
      PluginState.init.navMeshQuery :=
  (createNavMesh_failure_atomicity PluginState.init [] fun _ _ => none).2.1 rfl

/-- C9 counterexample: create the tile cache via a successful
`addCylinderObstacle` (rebuilt navmesh 1, tile cache 7), then call
`buildFromNavmeshData` importing navmesh 2.  The tile cache still exists,
but the plugin's `navMesh` is now the imported navmesh, not the one the
tile cache rebuild produced — the claimed invariant fails. -/
theorem tileCache_invariant_broken_by_buildFromNavmeshData :
    (pluginStep (pluginStep PluginState.init (.addCylinderObstacle fun _ _ => some (1, 7)))
        (.buildFromData 2)).tileCache = some 7 ∧
    (pluginStep (pluginStep PluginState.init (.addCylinderObstacle fun _ _ => some (1, 7)))
        (.buildFromData 2)).tileCacheNavMesh = some 1 ∧
    (pluginStep (pluginStep PluginState.init (.addCylinderObstacle fun _ _ => some (1, 7)))
        (.buildFromData 2)).navMesh = some 2 ∧
    (pluginStep (pluginStep PluginState.init (.addCylinderObstacle fun _ _ => some (1, 7)))
        (.buildFromData 2)).navMesh ≠
      (pluginStep (pluginStep PluginState.init (.addCylinderObstacle fun _ _ => some (1, 7)))
        (.buildFromData 2)).tileCacheNavMesh := by
  refine ⟨rfl, rfl, rfl, ?_⟩
  decide

/-- C9 (amended): the tile cache is created at most once per plugin
instance — once set, no plugin operation unsets or replaces it — and the
call that successfully creates it installs the rebuild's navmesh; but a
later `buildFromNavmeshData` (or synchronous `createNavMesh`) replaces
`navMesh` while the tile cache persists, so "navmesh is the tile cache's
rebuild" holds immediately after creation, not as a permanent invariant. -/
theorem tileCache_once_irreversible (s : PluginState) (t : ℕ) (op : PluginOp)
    (gen : List ℚ → List ℚ → Option (ℕ × ℕ)) (nm tc : ℕ) :
    (s.tileCache = some t → (pluginStep s op).tileCache = some t) ∧
    (s.tileCache = none → gen s.positions s.indices = some (nm, tc) →
      (createTileCache s gen).tileCache = some tc ∧
      (createTileCache s gen).navMesh = some nm ∧
      (createTileCache s gen).tileCacheNavMesh = some nm) ∧
    (s.tileCache = none → gen s.positions s.indices = none →
      createTileCache s gen = s) := by
  refine ⟨fun h => ?_, fun h hg => ?_, fun h hg => ?_⟩
  · cases op with
    | createNavMesh meshes g =>
      rw [pluginStep, (createNavMeshSync_tileCache s meshes g).1, h]
    | buildFromData nm => simpa [pluginStep, buildFromNavmeshData] using h
    | addCylinderObstacle g => simp [pluginStep, addObstacle, createTileCache, h]
    | addBoxObstacle g => simp [pluginStep, addObstacle, createTileCache, h]
    | removeObstacle => simpa [pluginStep] using h
    | dispose => simpa [pluginStep] using h
  · simp [createTileCache, h, hg]
  · simp [createTileCache, h, hg]

/-- Witness for C9 (amended): an operation on a plugin whose tile cache is
already `some 5` leaves it `some 5`; a successful creation from the fresh
state installs tile cache 7 and rebuild navmesh 1; a failed creation leaves
the fresh state unchanged. -/
theorem tileCache_once_irreversible_witness :
    (pluginStep { PluginState.init with tileCache := some 5 }
        (.buildFromData 2)).tileCache = some 5 ∧
    ((createTileCache PluginState.init fun _ _ => some (1, 7)).tileCache = some 7 ∧
      (createTileCache PluginState.init fun _ _ => some (1, 7)).navMesh = some 1 ∧
      (createTileCache PluginState.init fun _ _ => some (1, 7)).tileCacheNavMesh =
        some 1) ∧
    createTileCache PluginState.init (fun _ _ => none) = PluginState.init :=
  ⟨(tileCache_once_irreversible { PluginState.init with tileCache := some 5 } 5
      (.buildFromData 2) (fun _ _ => some (1, 7)) 1 7).1 rfl,
   (tileCache_once_irreversible PluginState.init 5 (.buildFromData 2)
      (fun _ _ => some (1, 7)) 1 7).2.1 rfl rfl,
   (tileCache_once_irreversible PluginState.init 5 (.buildFromData 2)
      (fun _ _ => none) 1 7).2.2 rfl rfl⟩

/-- C10: the geometry used for the build — stored into
`_positions`/`_indices`, posted to the worker, and handed to
`generateSoloNavMesh` alike — is read from `meshes[0]` only, so two calls
whose mesh arrays agree on the first mesh produce the same build input,
whatever the remaining meshes are. -/
theorem build_geometry_depends_only_on_first_mesh (m : MeshData)
    (rest₁ rest₂ : List MeshData) :
    buildInput (m :: rest₁) = buildInput (m :: rest₂) ∧
    buildInput (m :: rest₁) =
      some (m.vertexPositions.getD [], m.meshIndices.getD []) :=
  ⟨rfl, rfl⟩

end RecastNav
